import Mathlib

/-
Verification of the school_demo admission/notice/admin core.

The development shallowly embeds the data model (Admin, Admission, Notice),
the WTForms validators (AdmissionForm, LoginForm) and the request handlers
of src/app.py (index, admission, admin_login, admin_dashboard, add_notice)
together with the create-admin bootstrap command.  Machine state is a record
of three tables plus the login session; timestamps are server-clock ticks
passed to each handler.  Password hashing is an abstract parameter
gph : String -> String standing for werkzeug generate_password_hash.
-/

/-- Whitespace strip on both ends, as Python str.strip and the strip done by
the wtforms DataRequired validator. -/
def pyStrip (s : String) : String :=
  ⟨((s.data.dropWhile Char.isWhitespace).reverse.dropWhile Char.isWhitespace).reverse⟩

/-- Python truthiness of a string: nonempty. A missing form field is modelled
as the empty string, which is falsy exactly like None. -/
def truthy (s : String) : Bool := !(s == "")

/-- Accumulate a decimal digit list into a natural number. -/
def digitsToNat (l : List Char) : Nat :=
  l.foldl (fun acc c => acc * 10 + (c.toNat - 48)) 0

/-- Python int() applied to a string, as used by wtforms IntegerField
process_formdata: surrounding whitespace allowed, optional single sign,
then at least one decimal digit; anything else raises ValueError (none). -/
def parsePyInt (s : String) : Option Int :=
  let t := ((s.data.dropWhile Char.isWhitespace).reverse.dropWhile Char.isWhitespace).reverse
  match t with
  | [] => none
  | c :: rest =>
    if c == '-' then
      if !rest.isEmpty && rest.all Char.isDigit then some (-(digitsToNat rest : Int)) else none
    else if c == '+' then
      if !rest.isEmpty && rest.all Char.isDigit then some ((digitsToNat rest : Int)) else none
    else if (c :: rest).all Char.isDigit then some ((digitsToNat (c :: rest) : Int)) else none

/-- Split a character list at every occurrence of a separator character. -/
def splitOnChar (c : Char) : List Char → List (List Char)
  | [] => [[]]
  | x :: xs =>
    match splitOnChar c xs with
    | [] => [[]]
    | h :: t => if x == c then [] :: h :: t else (x :: h) :: t

/-- Modelled from the spec: the wtforms Email validator delegates to an
external email-validation library that is not part of this repository; the
spec only requires that an accepted value match a standard email address
pattern and that a missing (None) or empty value be rejected as invalid.
We require exactly one at-sign, nonempty local part and domain, no
whitespace, and a domain containing a dot with no empty dot-separated label. -/
def isValidEmail (s : String) : Bool :=
  match splitOnChar '@' s.data with
  | [loc, dom] =>
    !loc.isEmpty && !dom.isEmpty &&
    !(loc.any Char.isWhitespace) && !(dom.any Char.isWhitespace) &&
    dom.contains '.' &&
    (splitOnChar '.' dom).all (fun p => !p.isEmpty)
  | _ => false

/-- The wtforms DataRequired validator on a string datum: passes iff the
datum is truthy and does not strip to the empty string. -/
def dataRequiredOk (s : String) : Bool := truthy (pyStrip s)

-- -----------------------
-- Models (src/app.py lines 25-51)
-- -----------------------

/-- Admin row: id, unique email, password hash, optional display name. -/
structure Admin where
  id : Nat
  email : String
  password_hash : String
  name : String
deriving DecidableEq, Repr

/-- Admission row, one submitted application. submitted_at is the server
clock at insertion. -/
structure Admission where
  id : Nat
  student_name : String
  student_class : String
  age : Int
  parent_email : String
  phone : String
  message : String
  submitted_at : Nat
deriving DecidableEq, Repr

/-- Notice row, one published announcement. date is the server clock at
insertion. -/
structure Notice where
  id : Nat
  title : String
  content : String
  date : Nat
deriving DecidableEq, Repr

/-- The persistence store: the three tables. -/
structure DB where
  admins : List Admin
  admissions : List Admission
  notices : List Notice
deriving DecidableEq, Repr

-- -----------------------
-- Forms (src/app.py lines 56-68)
-- -----------------------

/-- Raw admission form input: each field is a raw string; a field absent
from the form data is the empty string. -/
structure AdmissionFormInput where
  student_name : String
  student_class : String
  age : String
  parent_email : String
  phone : String
  message : String
deriving DecidableEq, Repr

/-- Field-level error messages produced by AdmissionForm validation. -/
structure AdmissionErrors where
  student_name : List String
  student_class : List String
  age : List String
  parent_email : List String
  phone : List String
deriving DecidableEq, Repr

/-- Message the DataRequired validator reports. -/
def requiredMsg : String := "This field is required."

/-- student_name: DataRequired then Length max 200. DataRequired failure
stops the chain with only its message. -/
def student_nameErrors (s : String) : List String :=
  if !dataRequiredOk s then [requiredMsg]
  else if 200 < s.data.length then ["Field cannot be longer than 200 characters."]
  else []

/-- student_class: DataRequired only. -/
def student_classErrors (s : String) : List String :=
  if !dataRequiredOk s then [requiredMsg] else []

/-- age: IntegerField with DataRequired. If int() fails the datum is None,
and DataRequired clears previous errors and reports its message; if it
parses, DataRequired fails exactly when the integer is falsy, i.e. zero. -/
def ageErrors (raw : String) : List String :=
  match parsePyInt raw with
  | none => [requiredMsg]
  | some n => if n = 0 then [requiredMsg] else []

/-- parent_email: Email then Length max 150; Email raises a plain
ValidationError so the chain continues to Length. -/
def parent_emailErrors (s : String) : List String :=
  (if isValidEmail s then [] else ["Invalid email address."]) ++
  (if s.data.length ≤ 150 then [] else ["Field cannot be longer than 150 characters."])

/-- phone: Length max 50 only. -/
def phoneErrors (s : String) : List String :=
  if s.data.length ≤ 50 then [] else ["Field cannot be longer than 50 characters."]

/-- All field errors of one AdmissionForm validation run. The message field
has no validators. -/
def admissionFormErrors (f : AdmissionFormInput) : AdmissionErrors :=
  { student_name := student_nameErrors f.student_name
    student_class := student_classErrors f.student_class
    age := ageErrors f.age
    parent_email := parent_emailErrors f.parent_email
    phone := phoneErrors f.phone }

/-- form.validate_on_submit: true iff every field validates. -/
def admissionFormValid (f : AdmissionFormInput) : Bool :=
  (admissionFormErrors f).student_name.isEmpty &&
  (admissionFormErrors f).student_class.isEmpty &&
  (admissionFormErrors f).age.isEmpty &&
  (admissionFormErrors f).parent_email.isEmpty &&
  (admissionFormErrors f).phone.isEmpty

/-- Raw login form input. -/
structure LoginFormInput where
  email : String
  password : String
deriving DecidableEq, Repr

/-- LoginForm: email DataRequired and Email; password DataRequired. -/
def loginFormValid (f : LoginFormInput) : Bool :=
  dataRequiredOk f.email && isValidEmail f.email && dataRequiredOk f.password

-- -----------------------
-- Password hashing (werkzeug, abstract) and sessions
-- -----------------------

/-- werkzeug check_password_hash against an abstract hash function gph:
the stored hash verifies iff it is the hash of the submitted password. -/
def check_password_hash (gph : String → String) (hash password : String) : Bool :=
  hash == gph password

/-- The flask-login session: none is Anonymous, some id is Authenticated. -/
abbrev Session := Option Nat

-- -----------------------
-- Request handlers (src/app.py lines 80-139) and bootstrap (149-166)
-- -----------------------

/-- Descending order on Admission timestamps, as order_by(submitted_at.desc()). -/
def admLe (a b : Admission) : Bool := decide (b.submitted_at ≤ a.submitted_at)

/-- Descending order on Notice timestamps, as order_by(date.desc()). -/
def noticeLe (a b : Notice) : Bool := decide (b.date ≤ a.date)

/-- Home handler: latest 5 notices, timestamp descending. -/
def index (db : DB) : List Notice :=
  (db.notices.mergeSort noticeLe).take 5

/-- Outcome of the admission handler. -/
inductive AdmissionOutcome where
  | submitted
  | rendered (errors : AdmissionErrors)
deriving DecidableEq, Repr

/-- Submit-admission handler: on valid form insert one Admission row built
from the validated data with submitted_at = now, flash success and redirect;
otherwise re-render with the field errors and write nothing. -/
def admission (db : DB) (f : AdmissionFormInput) (now : Nat) : DB × AdmissionOutcome :=
  if admissionFormValid f then
    ({ db with admissions := db.admissions ++
        [{ id := db.admissions.length + 1
           student_name := f.student_name
           student_class := f.student_class
           age := (parsePyInt f.age).getD 0
           parent_email := f.parent_email
           phone := f.phone
           message := f.message
           submitted_at := now }] }, AdmissionOutcome.submitted)
  else (db, AdmissionOutcome.rendered (admissionFormErrors f))

/-- Outcome of the login handler. -/
inductive LoginOutcome where
  | success
  | invalidCredentials
  | rendered
deriving DecidableEq, Repr

/-- Admin login handler: on a valid form, look the admin up by email; if
found and the password verifies, authenticate and redirect to the dashboard;
otherwise flash the one generic invalid-credentials message. The store is
never written. -/
def admin_login (gph : String → String) (db : DB) (sess : Session)
    (f : LoginFormInput) : Session × LoginOutcome :=
  if loginFormValid f then
    match db.admins.find? (fun a => a.email == f.email) with
    | some a =>
      if check_password_hash gph a.password_hash f.password then
        (some a.id, LoginOutcome.success)
      else (sess, LoginOutcome.invalidCredentials)
    | none => (sess, LoginOutcome.invalidCredentials)
  else (sess, LoginOutcome.rendered)

/-- Dashboard data: latest 50 admissions descending, all notices descending. -/
def dashboardData (db : DB) : List Admission × List Notice :=
  ((db.admissions.mergeSort admLe).take 50, db.notices.mergeSort noticeLe)

/-- Dashboard handler: gated by login_required; Anonymous is redirected
to the login page (none). -/
def admin_dashboard (db : DB) (sess : Session) : Option (List Admission × List Notice) :=
  match sess with
  | none => none
  | some _ => some (dashboardData db)

/-- Outcome of the add-notice handler. -/
inductive AddNoticeOutcome where
  | added
  | skipped
  | loginRedirect
deriving DecidableEq, Repr

/-- Add-notice handler: gated by login_required; if both raw fields are
truthy insert one Notice with date = now and flash, else silently skip;
either way redirect to the dashboard. -/
def add_notice (db : DB) (sess : Session) (title content : String) (now : Nat) :
    DB × AddNoticeOutcome :=
  match sess with
  | none => (db, AddNoticeOutcome.loginRedirect)
  | some _ =>
    if truthy title && truthy content then
      ({ db with notices := db.notices ++
          [{ id := db.notices.length + 1, title := title, content := content, date := now }] },
       AddNoticeOutcome.added)
    else (db, AddNoticeOutcome.skipped)

/-- Store-level failure of an insert. -/
inductive StoreError where
  | constraintViolation
deriving DecidableEq, Repr

/-- Store-level insert into the Admin table: the unique constraint on email
rejects a duplicate with a ConstraintViolation. -/
def insertAdmin (db : DB) (a : Admin) : Except StoreError DB :=
  if db.admins.any (fun b => b.email == a.email) then
    Except.error StoreError.constraintViolation
  else Except.ok { db with admins := db.admins ++ [a] }

/-- Outcome of the create-admin bootstrap command. -/
inductive CreateAdminOutcome where
  | missingFields
  | adminExists
  | created
  | storeFailure (e : StoreError)
deriving DecidableEq, Repr

/-- flask create-admin: strip email and name, require email and password
truthy, refuse when an admin with that email already exists (printing a
message and returning before any insert), else insert one admin whose
password_hash is the hash of the prompted password. -/
def create_admin (gph : String → String) (db : DB)
    (emailInput nameInput password : String) : DB × CreateAdminOutcome :=
  let email := pyStrip emailInput
  let name := pyStrip nameInput
  if !truthy email || !truthy password then (db, CreateAdminOutcome.missingFields)
  else
    match db.admins.find? (fun a => a.email == email) with
    | some _ => (db, CreateAdminOutcome.adminExists)
    | none =>
      match insertAdmin db
          { id := db.admins.length + 1, email := email,
            password_hash := gph password, name := name } with
      | Except.ok db2 => (db2, CreateAdminOutcome.created)
      | Except.error e => (db, CreateAdminOutcome.storeFailure e)

-- -----------------------
-- Whole-application step relation
-- -----------------------

/-- Application state: the store plus the login session. -/
structure AppState where
  db : DB
  session : Session
deriving DecidableEq, Repr

/-- One specified operation of the system. -/
inductive Op where
  | opIndex
  | opAdmission (f : AdmissionFormInput) (now : Nat)
  | opLogin (f : LoginFormInput)
  | opLogout
  | opDashboard
  | opAddNotice (title content : String) (now : Nat)
  | opCreateAdmin (email name password : String)

/-- Effect of one operation on the application state. -/
def appStep (gph : String → String) (s : AppState) : Op → AppState
  | Op.opIndex => s
  | Op.opAdmission f now => { s with db := (admission s.db f now).1 }
  | Op.opLogin f => { s with session := (admin_login gph s.db s.session f).1 }
  | Op.opLogout => { s with session := none }
  | Op.opDashboard => s
  | Op.opAddNotice t c now => { s with db := (add_notice s.db s.session t c now).1 }
  | Op.opCreateAdmin e n p => { s with db := (create_admin gph s.db e n p).1 }

/-- The empty initial state: no rows, Anonymous session. -/
def initialState : AppState := { db := { admins := [], admissions := [], notices := [] }, session := none }

/-- States reachable from the empty store by the specified operations. -/
inductive Reachable (gph : String → String) : AppState → Prop
  | init : Reachable gph initialState
  | step (s : AppState) (op : Op) : Reachable gph s → Reachable gph (appStep gph s op)

/-- Every admin row in the store carries only a hash produced by gph,
never raw material written directly. -/
def hashedOnly (gph : String → String) (db : DB) : Prop :=
  ∀ a ∈ db.admins, ∃ p, a.password_hash = gph p

-- quick sanity checks of the embedding on concrete values
example : parsePyInt "14" = some 14 := by decide
example : parsePyInt " -3 " = some (-3) := by decide
example : parsePyInt "x1" = none := by decide
example : parsePyInt "0" = some 0 := by decide
example : isValidEmail "p@example.com" = true := by decide
example : isValidEmail "" = false := by decide
example : isValidEmail "p@com" = false := by decide
example : dataRequiredOk "  " = false := by decide
example : dataRequiredOk "Asha Rao" = true := by decide
example : admissionFormValid
    { student_name := "Asha Rao", student_class := "Class 9", age := "14",
      parent_email := "p@example.com", phone := "", message := "" } = true := by decide

-- -----------------------
-- Helper lemmas shared by several results
-- -----------------------

/-- Validation success decomposes into emptiness of every per-field error list. -/
theorem admissionFormValid_parts {f : AdmissionFormInput}
    (h : admissionFormValid f = true) :
    student_nameErrors f.student_name = [] ∧
    student_classErrors f.student_class = [] ∧
    ageErrors f.age = [] ∧
    parent_emailErrors f.parent_email = [] ∧
    phoneErrors f.phone = [] := by
  unfold admissionFormValid admissionFormErrors at h
  simp only [Bool.and_eq_true, List.isEmpty_iff] at h
  exact ⟨h.1.1.1.1, h.1.1.1.2, h.1.1.2, h.1.2, h.2⟩

/-- Validation fails whenever some per-field error list is nonempty. -/
theorem admissionFormValid_eq_false {f : AdmissionFormInput}
    (h : ¬(student_nameErrors f.student_name = [] ∧
           student_classErrors f.student_class = [] ∧
           ageErrors f.age = [] ∧
           parent_emailErrors f.parent_email = [] ∧
           phoneErrors f.phone = [])) :
    admissionFormValid f = false := by
  apply Bool.eq_false_iff.mpr
  intro hv
  exact h (admissionFormValid_parts hv)

/-- An empty age error list means the raw field parsed to a nonzero integer. -/
theorem ageErrors_nil {raw : String} (h : ageErrors raw = []) :
    ∃ n, parsePyInt raw = some n ∧ n ≠ 0 := by
  unfold ageErrors at h
  split at h
  · simp [requiredMsg] at h
  · next n heq =>
    refine ⟨n, heq, ?_⟩
    intro h0
    rw [if_pos h0] at h
    simp [requiredMsg] at h

/-- An invalid form makes the admission handler re-render with the field
errors and leave the store untouched. -/
theorem admission_eq_of_invalid (db : DB) {f : AdmissionFormInput} (now : Nat)
    (h : admissionFormValid f = false) :
    admission db f now = (db, AdmissionOutcome.rendered (admissionFormErrors f)) := by
  simp [admission, h]


-- -----------------------
-- C1: valid submission inserts exactly one row with the validated data
-- -----------------------

/-- Claim C1: for every valid admission submission (all form validators
pass), the Submit admission handler inserts exactly one AdmissionApplication
row whose stored fields (student_name, student_class, age, parent_email,
phone, message) equal the validated input, and whose submission timestamp is
set at insertion time. -/
theorem admission_valid_inserts_one_row (db : DB) (f : AdmissionFormInput) (now : Nat)
    (h : admissionFormValid f = true) :
    ∃ a, parsePyInt f.age = some a ∧
      admission db f now =
        ({ db with admissions := db.admissions ++
            [{ id := db.admissions.length + 1
               student_name := f.student_name
               student_class := f.student_class
               age := a
               parent_email := f.parent_email
               phone := f.phone
               message := f.message
               submitted_at := now }] },
         AdmissionOutcome.submitted) := by
  obtain ⟨-, -, hage, -, -⟩ := admissionFormValid_parts h
  obtain ⟨n, hp, -⟩ := ageErrors_nil hage
  exact ⟨n, hp, by simp [admission, h, hp]⟩

/-- Example form taken from the example scenario of the spec. -/
def exForm : AdmissionFormInput :=
  { student_name := "Asha Rao", student_class := "Class 9", age := "14",
    parent_email := "p@example.com", phone := "", message := "" }

/-- The empty store. -/
def exDB : DB := { admins := [], admissions := [], notices := [] }

/-- Witness for C1 at the example scenario input. -/
theorem admission_valid_inserts_one_row_witness :
    admissionFormValid exForm = true ∧
    (∃ a, parsePyInt exForm.age = some a ∧
      admission exDB exForm 7 =
        ({ exDB with admissions := exDB.admissions ++
            [{ id := exDB.admissions.length + 1
               student_name := exForm.student_name
               student_class := exForm.student_class
               age := a
               parent_email := exForm.parent_email
               phone := exForm.phone
               message := exForm.message
               submitted_at := 7 }] },
         AdmissionOutcome.submitted)) :=
  ⟨by decide, admission_valid_inserts_one_row exDB exForm 7 (by decide)⟩

-- -----------------------
-- C2: invalid submission inserts nothing, errors cover offending fields
-- -----------------------

/-- Claim C2: for every admission submission that is missing a required
field or whose age does not parse as an integer, the Submit admission
handler inserts zero rows and produces a field-level error set covering
every offending field; no partial record ever reaches the store. -/
theorem admission_invalid_zero_rows (db : DB) (f : AdmissionFormInput) (now : Nat)
    (h : dataRequiredOk f.student_name = false ∨
         dataRequiredOk f.student_class = false ∨
         parsePyInt f.age = none ∨
         f.parent_email = "") :
    admission db f now = (db, AdmissionOutcome.rendered (admissionFormErrors f)) ∧
    (dataRequiredOk f.student_name = false → (admissionFormErrors f).student_name ≠ []) ∧
    (dataRequiredOk f.student_class = false → (admissionFormErrors f).student_class ≠ []) ∧
    (parsePyInt f.age = none → (admissionFormErrors f).age ≠ []) ∧
    (f.parent_email = "" → (admissionFormErrors f).parent_email ≠ []) := by
  have hvalid : admissionFormValid f = false := by
    apply admissionFormValid_eq_false
    rintro ⟨h1, h2, h3, h4, -⟩
    rcases h with hx | hx | hx | hx
    · rw [student_nameErrors, hx] at h1; simp [requiredMsg] at h1
    · rw [student_classErrors, hx] at h2; simp [requiredMsg] at h2
    · rw [ageErrors, hx] at h3; simp [requiredMsg] at h3
    · rw [hx] at h4; revert h4; decide
  refine ⟨admission_eq_of_invalid db now hvalid, ?_, ?_, ?_, ?_⟩
  · intro hx; simp [admissionFormErrors, student_nameErrors, hx, requiredMsg]
  · intro hx; simp [admissionFormErrors, student_classErrors, hx, requiredMsg]
  · intro hx; simp [admissionFormErrors, ageErrors, hx, requiredMsg]
  · intro hx; simp only [admissionFormErrors]; rw [hx]; decide

/-- Example invalid form: every required field offends at once. -/
def exFormBad : AdmissionFormInput :=
  { student_name := "", student_class := " ", age := "abc",
    parent_email := "", phone := "", message := "" }

/-- Witness for C2 at a form offending in all four tracked fields. -/
theorem admission_invalid_zero_rows_witness :
    admission exDB exFormBad 3 = (exDB, AdmissionOutcome.rendered (admissionFormErrors exFormBad)) ∧
    (admissionFormErrors exFormBad).student_name ≠ [] ∧
    (admissionFormErrors exFormBad).student_class ≠ [] ∧
    (admissionFormErrors exFormBad).age ≠ [] ∧
    (admissionFormErrors exFormBad).parent_email ≠ [] := by
  have r := admission_invalid_zero_rows exDB exFormBad 3 (Or.inl (by decide))
  exact ⟨r.1, r.2.1 (by decide), r.2.2.1 (by decide), r.2.2.2.1 (by decide),
         r.2.2.2.2 (by decide)⟩


-- -----------------------
-- C7: parent email required, pattern-checked, bounded at 150
-- -----------------------

/-- Claim C7: for every admission submission, the parent email field is
required: a submission with an empty or missing parent email is rejected
with a field error, and an accepted parent email matches a standard email
address pattern and has length at most 150. -/
theorem parent_email_required_and_bounded (db : DB) (f : AdmissionFormInput) (now : Nat) :
    (f.parent_email = "" →
      (admissionFormErrors f).parent_email ≠ [] ∧
      admission db f now = (db, AdmissionOutcome.rendered (admissionFormErrors f))) ∧
    ((admissionFormErrors f).parent_email = [] →
      isValidEmail f.parent_email = true ∧ f.parent_email.data.length ≤ 150) := by
  constructor
  · intro hx
    have herr : (admissionFormErrors f).parent_email ≠ [] := by
      simp only [admissionFormErrors]; rw [hx]; decide
    have hvalid : admissionFormValid f = false := by
      apply admissionFormValid_eq_false
      rintro ⟨-, -, -, h4, -⟩
      exact herr (by simpa [admissionFormErrors] using h4)
    exact ⟨herr, admission_eq_of_invalid db now hvalid⟩
  · intro hx
    simp only [admissionFormErrors] at hx
    unfold parent_emailErrors at hx
    rcases List.append_eq_nil.mp hx with ⟨hl, hr⟩
    constructor
    · by_cases hv : isValidEmail f.parent_email
      · exact hv
      · rw [if_neg hv] at hl; simp at hl
    · by_cases hb : f.parent_email.data.length ≤ 150
      · exact hb
      · rw [if_neg hb] at hr; simp at hr

/-- Witness for C7: the empty email is rejected and nothing is inserted;
the accepted example email is pattern-valid and within 150 characters. -/
theorem parent_email_required_and_bounded_witness :
    ((admissionFormErrors exFormBad).parent_email ≠ [] ∧
      admission exDB exFormBad 2 = (exDB, AdmissionOutcome.rendered (admissionFormErrors exFormBad))) ∧
    (isValidEmail exForm.parent_email = true ∧ exForm.parent_email.data.length ≤ 150) :=
  ⟨(parent_email_required_and_bounded exDB exFormBad 2).1 (by decide),
   (parent_email_required_and_bounded exDB exForm 2).2 (by decide)⟩

-- -----------------------
-- C10: the integer 0 is treated as a missing age
-- -----------------------

/-- Claim C10: for every admission submission whose age field parses to the
integer 0, validation fails and zero rows are inserted, even though 0 parses
as an integer: the required-field check on the age field treats the value 0
as missing. -/
theorem age_zero_treated_as_missing (db : DB) (f : AdmissionFormInput) (now : Nat)
    (h : parsePyInt f.age = some 0) :
    (admissionFormErrors f).age = [requiredMsg] ∧
    admissionFormValid f = false ∧
    admission db f now = (db, AdmissionOutcome.rendered (admissionFormErrors f)) := by
  have hage : (admissionFormErrors f).age = [requiredMsg] := by
    simp [admissionFormErrors, ageErrors, h]
  have hvalid : admissionFormValid f = false := by
    apply admissionFormValid_eq_false
    rintro ⟨-, -, h3, -, -⟩
    rw [show ageErrors f.age = (admissionFormErrors f).age from rfl, hage] at h3
    simp [requiredMsg] at h3
  exact ⟨hage, hvalid, admission_eq_of_invalid db now hvalid⟩

/-- Example form identical to the valid example except that age is the
string 0, which parses to the falsy integer 0. -/
def exFormZero : AdmissionFormInput :=
  { student_name := "Asha Rao", student_class := "Class 9", age := "0",
    parent_email := "p@example.com", phone := "", message := "" }

/-- Witness for C10 at the age-0 form. -/
theorem age_zero_treated_as_missing_witness :
    (admissionFormErrors exFormZero).age = [requiredMsg] ∧
    admissionFormValid exFormZero = false ∧
    admission exDB exFormZero 4 = (exDB, AdmissionOutcome.rendered (admissionFormErrors exFormZero)) :=
  age_zero_treated_as_missing exDB exFormZero 4 (by decide)


-- -----------------------
-- C3: generic login failure, successful login authenticates
-- -----------------------

/-- Claim C3: for every pair of login attempts, one with a non-existent
email and one with an existing email but wrong password, the Admin login
handler produces the identical generic invalid-credentials outcome in both
runs and leaves the session Anonymous; with correct email and password it
transitions the session Anonymous to Authenticated and redirects to the
dashboard. -/
theorem login_generic_failure_and_success (gph : String → String) (db : DB)
    (f1 f2 f3 : LoginFormInput) (a2 a3 : Admin)
    (hv1 : loginFormValid f1 = true)
    (hn1 : db.admins.find? (fun a => a.email == f1.email) = none)
    (hv2 : loginFormValid f2 = true)
    (hf2 : db.admins.find? (fun a => a.email == f2.email) = some a2)
    (hw2 : a2.password_hash ≠ gph f2.password)
    (hv3 : loginFormValid f3 = true)
    (hf3 : db.admins.find? (fun a => a.email == f3.email) = some a3)
    (hw3 : a3.password_hash = gph f3.password) :
    admin_login gph db none f1 = (none, LoginOutcome.invalidCredentials) ∧
    admin_login gph db none f2 = (none, LoginOutcome.invalidCredentials) ∧
    (admin_login gph db none f1).2 = (admin_login gph db none f2).2 ∧
    admin_login gph db none f3 = (some a3.id, LoginOutcome.success) := by
  have h1 : admin_login gph db none f1 = (none, LoginOutcome.invalidCredentials) := by
    simp [admin_login, hv1, hn1]
  have h2 : admin_login gph db none f2 = (none, LoginOutcome.invalidCredentials) := by
    simp [admin_login, hv2, hf2, check_password_hash, hw2]
  have h3 : admin_login gph db none f3 = (some a3.id, LoginOutcome.success) := by
    simp [admin_login, hv3, hf3, check_password_hash, hw3]
  exact ⟨h1, h2, by rw [h1, h2], h3⟩

/-- Concrete stand-in for werkzeug generate_password_hash. -/
def gph0 : String → String := fun p => "#" ++ p

/-- Store with one admin whose password is pw under gph0. -/
def exDBLogin : DB :=
  { admins := [{ id := 1, email := "a@b.cd", password_hash := gph0 "pw", name := "Ann" }],
    admissions := [], notices := [] }

/-- Witness for C3: unknown email and wrong password give the same generic
failure on the Anonymous session; the right pair authenticates. -/
theorem login_generic_failure_and_success_witness :
    admin_login gph0 exDBLogin none { email := "z@b.cd", password := "pw" } =
      (none, LoginOutcome.invalidCredentials) ∧
    admin_login gph0 exDBLogin none { email := "a@b.cd", password := "wrong" } =
      (none, LoginOutcome.invalidCredentials) ∧
    (admin_login gph0 exDBLogin none { email := "z@b.cd", password := "pw" }).2 =
      (admin_login gph0 exDBLogin none { email := "a@b.cd", password := "wrong" }).2 ∧
    admin_login gph0 exDBLogin none { email := "a@b.cd", password := "pw" } =
      (some 1, LoginOutcome.success) :=
  login_generic_failure_and_success gph0 exDBLogin
    { email := "z@b.cd", password := "pw" }
    { email := "a@b.cd", password := "wrong" }
    { email := "a@b.cd", password := "pw" }
    { id := 1, email := "a@b.cd", password_hash := gph0 "pw", name := "Ann" }
    { id := 1, email := "a@b.cd", password_hash := gph0 "pw", name := "Ann" }
    (by decide) (by decide) (by decide) (by decide) (by decide)
    (by decide) (by decide) (by decide)

-- -----------------------
-- C4: add-notice inserts one row or silently skips
-- -----------------------

/-- Claim C4: for every authenticated Add notice request: if both title and
content are non-empty, exactly one Notice row is inserted with its timestamp
set at insertion time; if either is empty, zero rows are inserted and the
caller is redirected back, with no error surfaced. -/
theorem add_notice_one_or_none (db : DB) (i : Nat) (t c : String) (now : Nat) :
    (t ≠ "" → c ≠ "" →
      add_notice db (some i) t c now =
        ({ db with notices := db.notices ++
            [{ id := db.notices.length + 1, title := t, content := c, date := now }] },
         AddNoticeOutcome.added)) ∧
    ((t = "" ∨ c = "") →
      add_notice db (some i) t c now = (db, AddNoticeOutcome.skipped)) := by
  constructor
  · intro ht hc
    simp [add_notice, truthy, ht, hc]
  · intro h
    rcases h with h | h <;> simp [add_notice, truthy, h]

/-- Witness for C4: a full notice is inserted with the given clock; a notice
missing its content is silently skipped. -/
theorem add_notice_one_or_none_witness :
    add_notice exDB (some 1) "Holiday" "School closed." 9 =
      ({ exDB with notices := exDB.notices ++
          [{ id := exDB.notices.length + 1, title := "Holiday",
             content := "School closed.", date := 9 }] },
       AddNoticeOutcome.added) ∧
    add_notice exDB (some 1) "Holiday" "" 9 = (exDB, AddNoticeOutcome.skipped) :=
  ⟨(add_notice_one_or_none exDB 1 "Holiday" "School closed." 9).1 (by decide) (by decide),
   (add_notice_one_or_none exDB 1 "Holiday" "" 9).2 (Or.inr rfl)⟩


-- -----------------------
-- C5: listing limits and descending order
-- -----------------------

/-- Merge-sorting notices by noticeLe yields timestamps in descending order. -/
theorem mergeSort_noticeLe_pairwise (l : List Notice) :
    List.Pairwise (fun a b => b.date ≤ a.date) (l.mergeSort noticeLe) := by
  have h := @List.sorted_mergeSort Notice noticeLe
    (fun a b c hab hbc => by
      simp only [noticeLe, decide_eq_true_eq] at hab hbc ⊢
      omega)
    (fun a b => by
      simp only [noticeLe, Bool.or_eq_true, decide_eq_true_eq]
      omega)
    l
  exact h.imp (fun hab => by simpa [noticeLe] using hab)

/-- Merge-sorting admissions by admLe yields timestamps in descending order. -/
theorem mergeSort_admLe_pairwise (l : List Admission) :
    List.Pairwise (fun a b => b.submitted_at ≤ a.submitted_at) (l.mergeSort admLe) := by
  have h := @List.sorted_mergeSort Admission admLe
    (fun a b c hab hbc => by
      simp only [admLe, decide_eq_true_eq] at hab hbc ⊢
      omega)
    (fun a b => by
      simp only [admLe, Bool.or_eq_true, decide_eq_true_eq]
      omega)
    l
  exact h.imp (fun hab => by simpa [admLe] using hab)

/-- Claim C5: for every store state, the Home handler returns at most 5
Notice rows ordered by timestamp descending, and the Admin dashboard handler
returns at most 50 AdmissionApplication rows and all Notice rows, each
ordered by timestamp descending. -/
theorem listing_limits_and_order (db : DB) (i : Nat) :
    (index db).length ≤ 5 ∧
    List.Pairwise (fun a b => b.date ≤ a.date) (index db) ∧
    admin_dashboard db (some i) = some (dashboardData db) ∧
    (dashboardData db).1.length ≤ 50 ∧
    List.Pairwise (fun a b => b.submitted_at ≤ a.submitted_at) (dashboardData db).1 ∧
    List.Pairwise (fun a b => b.date ≤ a.date) (dashboardData db).2 ∧
    ((dashboardData db).2).Perm db.notices := by
  refine ⟨?_, ?_, rfl, ?_, ?_, ?_, ?_⟩
  · exact List.length_take_le 5 _
  · exact (mergeSort_noticeLe_pairwise db.notices).sublist (List.take_sublist 5 _)
  · exact List.length_take_le 50 _
  · exact (mergeSort_admLe_pairwise db.admissions).sublist (List.take_sublist 50 _)
  · exact mergeSort_noticeLe_pairwise db.notices
  · exact List.mergeSort_perm db.notices noticeLe


-- -----------------------
-- C6: duplicate-email bootstrap is refused before the store insert
-- -----------------------

/-- Store that already holds an admin registered under a@b.cd. -/
def exDBDup : DB :=
  { admins := [{ id := 1, email := "a@b.cd", password_hash := gph0 "pw", name := "Ann" }],
    admissions := [], notices := [] }

/-- Counterexample to C6 as stated: rerunning create-admin for the already
used email leaves the table unchanged, but the outcome is the early-return
AdminExists rejection, not a store-raised ConstraintViolation. -/
theorem create_admin_duplicate_counterexample :
    create_admin gph0 exDBDup "a@b.cd" "Ann" "pw" = (exDBDup, CreateAdminOutcome.adminExists) ∧
    CreateAdminOutcome.adminExists ≠
      CreateAdminOutcome.storeFailure StoreError.constraintViolation := by
  exact ⟨by decide, by decide⟩

/-- Claim C6 (amended): for every store state already containing an
Administrator with a given email, running the bootstrap create-admin
operation with that same email (and a nonempty password) is refused by the
pre-insert duplicate lookup with the AdminExists rejection — so the store
never raises a ConstraintViolation — and leaves the Administrator table
unchanged. -/
theorem create_admin_duplicate_refused (gph : String → String) (db : DB)
    (e n p : String) (a : Admin)
    (he : truthy (pyStrip e) = true)
    (hp : truthy p = true)
    (hfind : db.admins.find? (fun b => b.email == pyStrip e) = some a) :
    create_admin gph db e n p = (db, CreateAdminOutcome.adminExists) := by
  simp [create_admin, he, hp, hfind]

/-- Witness for the amended C6 at the duplicated concrete email. -/
theorem create_admin_duplicate_refused_witness :
    create_admin gph0 exDBDup "a@b.cd" "X" "other" = (exDBDup, CreateAdminOutcome.adminExists) :=
  create_admin_duplicate_refused gph0 exDBDup "a@b.cd" "X" "other"
    { id := 1, email := "a@b.cd", password_hash := gph0 "pw", name := "Ann" }
    (by decide) (by decide) (by decide)


-- -----------------------
-- Table-evolution lemmas for the step relation
-- -----------------------

/-- The admission handler only ever appends to the admissions table. -/
theorem admission_admissions_extends (db : DB) (f : AdmissionFormInput) (now : Nat) :
    ∃ t, (admission db f now).1.admissions = db.admissions ++ t := by
  simp only [admission]
  split
  · exact ⟨_, rfl⟩
  · exact ⟨[], by simp⟩

/-- The admission handler leaves notices and admins unchanged. -/
theorem admission_other_tables (db : DB) (f : AdmissionFormInput) (now : Nat) :
    (admission db f now).1.notices = db.notices ∧
    (admission db f now).1.admins = db.admins := by
  simp only [admission]
  split <;> exact ⟨rfl, rfl⟩

/-- The add-notice handler only ever appends to the notices table. -/
theorem add_notice_notices_extends (db : DB) (sess : Session) (t c : String) (now : Nat) :
    ∃ u, (add_notice db sess t c now).1.notices = db.notices ++ u := by
  cases sess with
  | none => exact ⟨[], by simp [add_notice]⟩
  | some i =>
    simp only [add_notice]
    split
    · exact ⟨_, rfl⟩
    · exact ⟨[], by simp⟩

/-- The add-notice handler leaves admissions and admins unchanged. -/
theorem add_notice_other_tables (db : DB) (sess : Session) (t c : String) (now : Nat) :
    (add_notice db sess t c now).1.admissions = db.admissions ∧
    (add_notice db sess t c now).1.admins = db.admins := by
  cases sess with
  | none => exact ⟨rfl, rfl⟩
  | some i =>
    simp only [add_notice]
    split <;> exact ⟨rfl, rfl⟩

/-- The bootstrap command leaves admissions and notices unchanged. -/
theorem create_admin_other_tables (gph : String → String) (db : DB) (e n p : String) :
    (create_admin gph db e n p).1.admissions = db.admissions ∧
    (create_admin gph db e n p).1.notices = db.notices := by
  simp only [create_admin, insertAdmin]
  split
  · exact ⟨rfl, rfl⟩
  · split
    · exact ⟨rfl, rfl⟩
    · split
      · next db2 heq =>
        split at heq
        · simp at heq
        · cases heq; exact ⟨rfl, rfl⟩
      · exact ⟨rfl, rfl⟩

/-- The bootstrap command either leaves the admin table unchanged or appends
exactly one row whose stored hash is gph of the prompted password. -/
theorem create_admin_admins_evolution (gph : String → String) (db : DB) (e n p : String) :
    (create_admin gph db e n p).1.admins = db.admins ∨
    ∃ a, a.password_hash = gph p ∧
      (create_admin gph db e n p).1.admins = db.admins ++ [a] := by
  simp only [create_admin, insertAdmin]
  split
  · exact Or.inl rfl
  · split
    · exact Or.inl rfl
    · split
      · next db2 heq =>
        split at heq
        · simp at heq
        · cases heq
          exact Or.inr ⟨_, rfl, rfl⟩
      · exact Or.inl rfl


-- -----------------------
-- C9: admissions and notices are append-only under every operation
-- -----------------------

/-- Claim C9: AdmissionApplication and Notice rows are append-only: every
specified operation (submit admission, login, logout, dashboard, add notice,
home, and also the bootstrap) preserves all existing AdmissionApplication
and Notice rows unchanged — the state after any operation extends the
previous tables, so no operation mutates or deletes a row after creation. -/
theorem tables_append_only (gph : String → String) (s : AppState) (op : Op) :
    (∃ t, (appStep gph s op).db.admissions = s.db.admissions ++ t) ∧
    (∃ u, (appStep gph s op).db.notices = s.db.notices ++ u) := by
  cases op with
  | opIndex => exact ⟨⟨[], by simp [appStep]⟩, ⟨[], by simp [appStep]⟩⟩
  | opDashboard => exact ⟨⟨[], by simp [appStep]⟩, ⟨[], by simp [appStep]⟩⟩
  | opLogin f => exact ⟨⟨[], by simp [appStep]⟩, ⟨[], by simp [appStep]⟩⟩
  | opLogout => exact ⟨⟨[], by simp [appStep]⟩, ⟨[], by simp [appStep]⟩⟩
  | opAdmission f now =>
    refine ⟨admission_admissions_extends s.db f now, ⟨[], ?_⟩⟩
    simpa using (admission_other_tables s.db f now).1
  | opAddNotice t c now =>
    refine ⟨⟨[], ?_⟩, add_notice_notices_extends s.db s.session t c now⟩
    simpa using (add_notice_other_tables s.db s.session t c now).1
  | opCreateAdmin e n p =>
    refine ⟨⟨[], ?_⟩, ⟨[], ?_⟩⟩
    · simpa using (create_admin_other_tables gph s.db e n p).1
    · simpa using (create_admin_other_tables gph s.db e n p).2

-- -----------------------
-- C8: stored admin passwords are always hashes, never cleartext
-- -----------------------

/-- Claim C8: in every reachable store state produced by the specified
operations, no Administrator password is stored in cleartext: every stored
password_hash is the image under the one-way hash gph of the password that
was supplied, so whenever gph is moving (a hash never equals its preimage)
the stored value differs from the cleartext password. -/
theorem passwords_never_cleartext (gph : String → String) (s : AppState)
    (h : Reachable gph s) :
    hashedOnly gph s.db ∧
    ((∀ x, gph x ≠ x) → ∀ a ∈ s.db.admins, ∀ p, a.password_hash = gph p →
      a.password_hash ≠ p) := by
  refine ⟨?_, ?_⟩
  · induction h with
    | init =>
      intro a ha
      simp [initialState] at ha
    | step s op hr ih =>
      intro b hb
      cases op with
      | opIndex => exact ih b hb
      | opDashboard => exact ih b hb
      | opLogin f => exact ih b hb
      | opLogout => exact ih b hb
      | opAdmission f now =>
        rw [show (appStep gph s (Op.opAdmission f now)).db.admins =
              (admission s.db f now).1.admins from rfl,
            (admission_other_tables s.db f now).2] at hb
        exact ih b hb
      | opAddNotice t c now =>
        rw [show (appStep gph s (Op.opAddNotice t c now)).db.admins =
              (add_notice s.db s.session t c now).1.admins from rfl,
            (add_notice_other_tables s.db s.session t c now).2] at hb
        exact ih b hb
      | opCreateAdmin e n p =>
        rcases create_admin_admins_evolution gph s.db e n p with heq | ⟨a, hpa, heq⟩
        · rw [show (appStep gph s (Op.opCreateAdmin e n p)).db.admins =
                (create_admin gph s.db e n p).1.admins from rfl, heq] at hb
          exact ih b hb
        · rw [show (appStep gph s (Op.opCreateAdmin e n p)).db.admins =
                (create_admin gph s.db e n p).1.admins from rfl, heq] at hb
          rcases List.mem_append.mp hb with hb | hb
          · exact ih b hb
          · rw [List.mem_singleton.mp hb]
            exact ⟨p, hpa⟩
  · intro hx a _ p hp
    rw [hp]
    exact hx p

/-- The state after bootstrapping one admin from the empty store. -/
def exState1 : AppState :=
  appStep gph0 initialState (Op.opCreateAdmin "a@b.cd" "Ann" "pw")

/-- Witness for C8: after the one reachable bootstrap step, every stored
admin credential is a gph0 image. -/
theorem passwords_never_cleartext_witness :
    hashedOnly gph0 exState1.db :=
  (passwords_never_cleartext gph0 exState1
    (Reachable.step initialState (Op.opCreateAdmin "a@b.cd" "Ann" "pw") Reachable.init)).1

